import Mathlib

/-!
Verification development for the order-service HTTP handlers in
`app/main_apprunner.py`.

The service is a thin façade over a document store (DynamoDB), an event
bus (EventBridge) and an object store (S3).  We embed the JSON data
model, the store semantics the handlers rely on (put / query / update /
scan, composite pk+sk addressing with upsert on update), and each HTTP
handler as a pure function from a world state (store contents, published
events, object-store contents, configuration) and the request inputs to
a response and a new world state.

Nondeterministic inputs of a handler (the generated UUID, the current
timestamp) are passed as explicit parameters.  The success or failure of
each downstream SDK call is likewise passed as an explicit Boolean,
mirroring the `try/except` structure of the handlers: a raised exception
from a downstream call is caught and mapped to a generic 500 response,
leaving any state changes from earlier calls in place.
-/

/-- JSON values, as carried in request and response bodies and in stored
items.  Objects are insertion-ordered association lists, matching Python
dicts. -/
inductive JVal where
  | str : String → JVal
  | num : Int → JVal
  | jbool : Bool → JVal
  | null : JVal
  | arr : List JVal → JVal
  | obj : List (String × JVal) → JVal

/-- A stored item or JSON object body: an insertion-ordered list of
fields.  Python dicts have unique keys; where a fact depends on it we
hypothesise `(fields.map Prod.fst).Nodup`. -/
abbrev Item := List (String × JVal)

/-- Field lookup, first match (Python `d.get(k)` / `d[k]`). -/
def getField : Item → String → Option JVal
  | [], _ => none
  | (k₀, v₀) :: rest, k => if k₀ = k then some v₀ else getField rest k

/-- Field assignment (Python `d[k] = v`): replace the first occurrence
in place, else append. -/
def setField : Item → String → JVal → Item
  | [], k, v => [(k, v)]
  | (k₀, v₀) :: rest, k, v =>
    if k₀ = k then (k, v) :: rest else (k₀, v₀) :: setField rest k v

/-- Dict merge (Python `{**base, **upd}` applied to `base`): assign each
field of `upd` in order, later occurrences winning. -/
def mergeFields (base upd : Item) : Item :=
  upd.foldl (fun acc p => setField acc p.1 p.2) base

/-- The document store table: a list of items. -/
abbrev Table := List Item

/-- The composite primary key of an item.  The table schema types both
key attributes as strings (`pk`, `sk`), so the store only ever compares
string-valued keys; an item without string-valued key attributes has no
key. -/
def strKey (it : Item) : Option (String × String) :=
  match getField it "pk", getField it "sk" with
  | some (.str p), some (.str s) => some (p, s)
  | _, _ => none

/-- An item lives in the partition `pk`. -/
def hasPk (it : Item) (pk : String) : Bool :=
  match getField it "pk" with
  | some (.str p) => p == pk
  | _ => false

/-- An item has the sort key `sk`. -/
def hasSk (it : Item) (sk : String) : Bool :=
  match getField it "sk" with
  | some (.str s) => s == sk
  | _ => false

/-- An item is addressed by the concrete string pair `(pk, sk)`. -/
def hasKey (it : Item) (pk sk : String) : Bool :=
  hasPk it pk && hasSk it sk

/-- Two items collide when their composite primary keys coincide. -/
def sameKey (a b : Item) : Bool :=
  match strKey a, strKey b with
  | some ka, some kb => ka.1 == kb.1 && ka.2 == kb.2
  | _, _ => false

/-- DynamoDB `put_item`: replaces the item with the same composite
primary key if one exists, otherwise inserts. -/
def put_item (t : Table) (it : Item) : Table :=
  if t.any (fun x => sameKey x it) then
    t.map (fun x => if sameKey x it then it else x)
  else
    t ++ [it]

/-- DynamoDB `query` with key condition `pk = :pk`: every item of the
partition. -/
def queryPk (t : Table) (pk : String) : List Item :=
  t.filter (fun it => hasPk it pk)

/-- DynamoDB `update_item` on key `(pk, sk)` with update expression
`SET #status = :status, updated_at = :timestamp`.  An upsert: when no
item has the addressed key, a new item holding the key attributes and
the assigned attributes is created. -/
def update_item (t : Table) (pk sk : String) (status ts : JVal) : Table :=
  if t.any (fun it => hasKey it pk sk) then
    t.map (fun it =>
      if hasKey it pk sk then setField (setField it "status" status) "updated_at" ts else it)
  else
    t ++ [[("pk", .str pk), ("sk", .str sk), ("status", status), ("updated_at", ts)]]

/-- DynamoDB `scan`: all items, and `Count`, the number of items
returned. -/
def scan (t : Table) : List Item × Nat :=
  (t, t.length)

/-- An EventBridge entry as assembled by the handlers. -/
structure EventEntry where
  source : String
  detailType : String
  detail : Item
  eventBusName : String

/-- The world the handlers act on: document-store table, events
published so far, object-store contents, and the environment
configuration. -/
structure World where
  table : Table
  events : List EventEntry
  s3Objects : List (String × JVal)
  s3Bucket : String
  eventBusName : String

/-- An HTTP response: a JSON body on success, or an HTTPException with
status code and detail. -/
inductive Resp where
  | ok : JVal → Resp
  | err : Nat → String → Resp

/-- The item assembled by `create_order`: the dict literal puts the
generated fields first and spreads `**order` last, so caller-supplied
fields override the generated `pk`, `sk`, `order_id`, `status` and
`created_at`. -/
def createItem (order : Item) (order_id timestamp : String) : Item :=
  mergeFields
    [("pk", .str ("ORDER#" ++ order_id)),
     ("sk", .str ("METADATA#" ++ timestamp)),
     ("order_id", .str order_id),
     ("status", .str "created"),
     ("created_at", .str timestamp)]
    order

/-- `POST /orders` (`create_order`): writes the merged item to the
store, then publishes an "Order Created" event, then returns
`{order_id, status, timestamp}`.  `order_id` and `timestamp` are the
generated UUID and current time; `putOk` / `publishOk` say whether the
two downstream calls succeed.  A failure raises, is caught, and maps to
a 500 with the state changes of the earlier calls kept. -/
def create_order (w : World) (order : Item) (order_id timestamp : String)
    (putOk publishOk : Bool) : Resp × World :=
  let item := createItem order order_id timestamp
  if putOk then
    let w₁ := { w with table := put_item w.table item }
    if publishOk then
      let ev : EventEntry :=
        { source := "myapp.orders", detailType := "Order Created",
          detail := [("order_id", .str order_id), ("status", .str "created"),
                     ("timestamp", .str timestamp)],
          eventBusName := w.eventBusName }
      (.ok (.obj [("order_id", .str order_id), ("status", .str "created"),
                  ("timestamp", .str timestamp)]),
       { w₁ with events := w₁.events ++ [ev] })
    else
      (.err 500 "Failed to create order", w₁)
  else
    (.err 500 "Failed to create order", w)

/-- `GET /orders/{order_id}` (`get_order`): queries the partition
`ORDER#<id>`; 404 when the item list is empty, else the first item.
`queryOk` says whether the store query succeeds; a raised error maps to
500. -/
def get_order (w : World) (order_id : String) (queryOk : Bool) : Resp :=
  if queryOk then
    match queryPk w.table ("ORDER#" ++ order_id) with
    | [] => .err 404 "Order not found"
    | it :: _ => .ok (.obj it)
  else
    .err 500 "Failed to get order"

/-- Lookup in a `Dict[str, str]` request body (Python `d.get(k)`). -/
def lookupStr : List (String × String) → String → Option String
  | [], _ => none
  | (k₀, v₀) :: rest, k => if k₀ = k then some v₀ else lookupStr rest k

/-- `PUT /orders/{order_id}/status` (`update_order_status`): reads
`status` from the body and rejects with 400 when it is falsy (`if not
new_status:` — absent or the empty string); otherwise updates the item
addressed by `(ORDER#<id>, METADATA#<fresh timestamp>)`, publishes an
"Order Status Updated" event, and returns
`{order_id, status, timestamp}`. -/
def update_order_status (w : World) (order_id : String)
    (status_data : List (String × String)) (timestamp : String)
    (updateOk publishOk : Bool) : Resp × World :=
  match lookupStr status_data "status" with
  | none => (.err 400 "Status is required", w)
  | some new_status =>
    if new_status = "" then
      (.err 400 "Status is required", w)
    else if updateOk then
      let w₁ := { w with
        table := update_item w.table ("ORDER#" ++ order_id)
          ("METADATA#" ++ timestamp) (.str new_status) (.str timestamp) }
      if publishOk then
        let ev : EventEntry :=
          { source := "myapp.orders", detailType := "Order Status Updated",
            detail := [("order_id", .str order_id), ("status", .str new_status),
                       ("timestamp", .str timestamp)],
            eventBusName := w.eventBusName }
        (.ok (.obj [("order_id", .str order_id), ("status", .str new_status),
                    ("timestamp", .str timestamp)]),
         { w₁ with events := w₁.events ++ [ev] })
      else
        (.err 500 "Failed to update order", w₁)
    else
      (.err 500 "Failed to update order", w)

/-- `GET /orders` (`list_orders`): full-table scan, returning the items
and the scan Count. -/
def list_orders (w : World) (scanOk : Bool) : Resp :=
  if scanOk then
    let response := scan w.table
    .ok (.obj [("orders", .arr (response.1.map JVal.obj)),
               ("count", .num (Int.ofNat response.2))])
  else
    .err 500 "Failed to list orders"

/-- Python `str()` of the filename value as interpolated into the
f-string building the object key.  The handler is meant to receive a
string filename; containers are rendered without Python repr quoting of
their elements, which no property here depends on. -/
def pyStr : JVal → String
  | .str s => s
  | .num n => toString n
  | .jbool b => if b then "True" else "False"
  | .null => "None"
  | .arr _ => "[...]"
  | .obj _ => "dict"

/-- `POST /files/upload` (`upload_file`): 500 when the bucket
configuration is the empty string (unconfigured), before any store
call; otherwise writes the JSON body under a generated
`uploads/<uuid>-<filename>` key and returns
`{file_key, bucket, timestamp}`. -/
def upload_file (w : World) (file_data : Item) (uuid timestamp : String)
    (s3PutOk : Bool) : Resp × World :=
  if w.s3Bucket = "" then
    (.err 500 "S3 bucket not configured", w)
  else
    let file_key := "uploads/" ++ uuid ++ "-" ++
      (match getField file_data "filename" with
       | some v => pyStr v
       | none => "file")
    if s3PutOk then
      (.ok (.obj [("file_key", .str file_key), ("bucket", .str w.s3Bucket),
                  ("timestamp", .str timestamp)]),
       { w with s3Objects := w.s3Objects ++ [(file_key, .obj file_data)] })
    else
      (.err 500 "Failed to upload file", w)

/-- A sequence of fully successful create-order calls; each list element
gives the request body and the UUID and timestamp generated during that
call.  Returns the final world and the responses in call order. -/
def runCreates : World → List (Item × String × String) → World × List Resp
  | w, [] => (w, [])
  | w, (order, oid, ts) :: rest =>
    let r := create_order w order oid ts true true
    let rr := runCreates r.2 rest
    (rr.1, r.1 :: rr.2)

/-- The `order_id` field of a successful response body. -/
def respOrderId (r : Resp) : Option JVal :=
  match r with
  | .ok (.obj fields) => getField fields "order_id"
  | _ => none

/-- An empty store under the default environment configuration
(`EVENT_BUS_NAME` defaults to `default`, `S3_BUCKET` to the empty
string, i.e. unconfigured). -/
def defaultWorld : World :=
  { table := [], events := [], s3Objects := [], s3Bucket := "", eventBusName := "default" }

/-- A world whose object-store bucket is configured. -/
def bucketWorld : World :=
  { defaultWorld with s3Bucket := "demo-bucket" }

/-- The stored order produced by a create with an empty body at id
`o-1`, time `T0`. -/
def sampleItem : Item := createItem [] "o-1" "T0"

/-- A store holding exactly `sampleItem`. -/
def sampleWorld : World := { defaultWorld with table := [sampleItem] }

theorem getField_setField_self (it : Item) (k : String) (v : JVal) :
    getField (setField it k v) k = some v := by
  induction it with
  | nil => simp [setField, getField]
  | cons p rest ih =>
    obtain ⟨k₀, v₀⟩ := p
    by_cases h : k₀ = k
    · simp [setField, getField, h]
    · simp [setField, getField, h, ih]

theorem getField_setField_ne (it : Item) (k k₁ : String) (v : JVal)
    (h : k₁ ≠ k) :
    getField (setField it k₁ v) k = getField it k := by
  induction it with
  | nil => simp [setField, getField, h]
  | cons p rest ih =>
    obtain ⟨k₀, v₀⟩ := p
    by_cases h₀ : k₀ = k₁
    · subst h₀
      simp [setField, getField, h]
    · by_cases hk : k₀ = k
      · simp [setField, getField, h₀, hk, Ne.symm h]
      · simp [setField, getField, h₀, hk, ih]

theorem getField_eq_none (it : Item) (k : String)
    (h : ∀ p ∈ it, p.1 ≠ k) : getField it k = none := by
  induction it with
  | nil => rfl
  | cons p rest ih =>
    obtain ⟨k₀, v₀⟩ := p
    have hk : k₀ ≠ k := h (k₀, v₀) (List.mem_cons_self _ _)
    simp only [getField, if_neg hk]
    exact ih (fun q hq => h q (List.mem_cons_of_mem _ hq))

theorem getField_mergeFields_none (base upd : Item) (k : String)
    (h : getField upd k = none) :
    getField (mergeFields base upd) k = getField base k := by
  induction upd generalizing base with
  | nil => rfl
  | cons p rest ih =>
    obtain ⟨k₀, v₀⟩ := p
    have hne : k₀ ≠ k := by
      intro hk
      simp [getField, hk] at h
    have hrest : getField rest k = none := by
      simpa [getField, hne] using h
    have hstep : mergeFields base ((k₀, v₀) :: rest)
        = mergeFields (setField base k₀ v₀) rest := rfl
    rw [hstep, ih _ hrest, getField_setField_ne _ _ _ _ hne]

theorem getField_mergeFields_mem (base upd : Item) (k : String) (v : JVal)
    (hnd : (upd.map Prod.fst).Nodup) (hmem : (k, v) ∈ upd) :
    getField (mergeFields base upd) k = some v := by
  induction upd generalizing base with
  | nil => simp at hmem
  | cons p rest ih =>
    obtain ⟨k₀, v₀⟩ := p
    simp only [List.map_cons, List.nodup_cons] at hnd
    have hstep : mergeFields base ((k₀, v₀) :: rest)
        = mergeFields (setField base k₀ v₀) rest := rfl
    rcases List.mem_cons.mp hmem with heq | hmem₂
    · cases heq
      have hrest : getField rest k = none := by
        apply getField_eq_none
        intro q hq hq1
        exact hnd.1 (hq1 ▸ List.mem_map_of_mem Prod.fst hq)
      rw [hstep, getField_mergeFields_none _ _ _ hrest, getField_setField_self]
    · rw [hstep]
      exact ih (setField base k₀ v₀) hnd.2 hmem₂

theorem put_item_fresh (t : Table) (it : Item)
    (h : ∀ x ∈ t, sameKey x it = false) :
    put_item t it = t ++ [it] := by
  have hany : t.any (fun x => sameKey x it) = false := by
    rw [List.any_eq_false]
    intro x hx
    simp [h x hx]
  simp [put_item, hany]

theorem mem_put_item (t : Table) (it : Item) : it ∈ put_item t it := by
  unfold put_item
  split
  · rename_i h
    rw [List.any_eq_true] at h
    obtain ⟨x, hx, hkey⟩ := h
    refine List.mem_map.mpr ⟨x, hx, ?_⟩
    simp [hkey]
  · simp

theorem update_item_fresh (t : Table) (pk sk : String) (s ts : JVal)
    (h : ∀ x ∈ t, hasKey x pk sk = false) :
    update_item t pk sk s ts
      = t ++ [[("pk", .str pk), ("sk", .str sk), ("status", s), ("updated_at", ts)]] := by
  have hany : t.any (fun x => hasKey x pk sk) = false := by
    rw [List.any_eq_false]
    intro x hx
    simp [h x hx]
  simp [update_item, hany]

theorem hasKey_hasPk (it : Item) (pk sk : String)
    (h : hasKey it pk sk = true) : hasPk it pk = true := by
  unfold hasKey at h
  rw [Bool.and_eq_true] at h
  exact h.1

theorem hasPk_of_getField (it : Item) (pk : String)
    (h : getField it "pk" = some (.str pk)) : hasPk it pk = true := by
  simp [hasPk, h]

theorem strKey_pk (it : Item) (k : String × String)
    (h : strKey it = some k) : getField it "pk" = some (.str k.1) := by
  unfold strKey at h
  split at h
  · rename_i p s hp hs
    injection h with h₀
    rw [← h₀]
    exact hp
  · simp at h

theorem sameKey_false_of_pk (x it : Item) (pk : String)
    (hit : getField it "pk" = some (.str pk)) (hx : hasPk x pk = false) :
    sameKey x it = false := by
  by_contra hcon
  rw [Bool.not_eq_false] at hcon
  unfold sameKey at hcon
  rcases hkx : strKey x with _ | kx <;> rw [hkx] at hcon
  · simp at hcon
  · rcases hki : strKey it with _ | ki <;> rw [hki] at hcon
    · simp at hcon
    · simp only [Bool.and_eq_true, beq_iff_eq] at hcon
      have hxpk : getField x "pk" = some (.str kx.1) := strKey_pk x kx hkx
      have hipk : getField it "pk" = some (.str ki.1) := strKey_pk it ki hki
      rw [hit] at hipk
      injection hipk with hipk₀
      have hpk₁ : kx.1 = pk := by
        rw [hcon.1]
        injection hipk₀.symm
      rw [hasPk, hxpk, hpk₁] at hx
      simp at hx

/-- C9: `PUT /orders/{id}/status` with body `{"status": ""}` is rejected
with 400 exactly as when the `status` field is missing: the handler
guards with `if not new_status:`, which tests Python falsiness, and the
empty string is falsy. -/
theorem C9_empty_status_rejected_like_missing (w : World)
    (order_id timestamp : String) (updateOk publishOk : Bool) :
    update_order_status w order_id [("status", "")] timestamp updateOk publishOk
        = (.err 400 "Status is required", w)
      ∧ update_order_status w order_id [] timestamp updateOk publishOk
        = (.err 400 "Status is required", w) :=
  ⟨rfl, rfl⟩

/-- C3 counterexample: with body `{"status": ""}` the `status` field is
present, yet the handler answers 400 — refuting "400 if and only if the
request body has no status field". -/
theorem C3_counterexample :
    lookupStr [("status", "")] "status" = some ""
      ∧ (update_order_status defaultWorld "o-1" [("status", "")] "T1" true true).1
        = .err 400 "Status is required" :=
  ⟨rfl, rfl⟩

/-- C3 (amended): `PUT /orders/{id}/status` returns 400 iff the `status`
field is missing or is the empty string; when it is present and
non-empty and both downstream calls succeed, the handler performs the
store update and returns `{order_id, status, timestamp}` carrying the
supplied status. -/
theorem C3_status_update_contract (w : World) (order_id : String)
    (status_data : List (String × String)) (timestamp : String)
    (updateOk publishOk : Bool) :
    ((update_order_status w order_id status_data timestamp updateOk publishOk).1
        = .err 400 "Status is required"
      ↔ lookupStr status_data "status" = none ∨ lookupStr status_data "status" = some "")
    ∧ (∀ s, lookupStr status_data "status" = some s → s ≠ "" →
        update_order_status w order_id status_data timestamp true true
          = (.ok (.obj [("order_id", .str order_id), ("status", .str s),
                        ("timestamp", .str timestamp)]),
             { w with
               table := update_item w.table ("ORDER#" ++ order_id)
                 ("METADATA#" ++ timestamp) (.str s) (.str timestamp),
               events := w.events ++
                 [{ source := "myapp.orders", detailType := "Order Status Updated",
                    detail := [("order_id", .str order_id), ("status", .str s),
                               ("timestamp", .str timestamp)],
                    eventBusName := w.eventBusName }] })) := by
  constructor
  · rcases hl : lookupStr status_data "status" with _ | s
    · simp [update_order_status, hl]
    · by_cases hs : s = ""
      · subst hs
        simp [update_order_status, hl]
      · cases updateOk <;> cases publishOk <;> simp [update_order_status, hl, hs]
  · intro s hl hs
    simp [update_order_status, hl, hs]

/-- C3 witness: a concrete non-empty status update. -/
theorem C3_status_update_contract_witness :
    update_order_status defaultWorld "o-1" [("status", "shipped")] "T1" true true
      = (.ok (.obj [("order_id", .str "o-1"), ("status", .str "shipped"),
                    ("timestamp", .str "T1")]),
         { defaultWorld with
           table := update_item defaultWorld.table ("ORDER#" ++ "o-1")
             ("METADATA#" ++ "T1") (.str "shipped") (.str "T1"),
           events := defaultWorld.events ++
             [{ source := "myapp.orders", detailType := "Order Status Updated",
                detail := [("order_id", .str "o-1"), ("status", .str "shipped"),
                           ("timestamp", .str "T1")],
                eventBusName := defaultWorld.eventBusName }] }) :=
  (C3_status_update_contract defaultWorld "o-1" [("status", "shipped")] "T1" true true).2
    "shipped" rfl (by decide)

/-- C4: `GET /orders/{id}` returns 404 when the partition query comes
back empty, and the first returned item otherwise. -/
theorem C4_get_order_404_or_first (w : World) (order_id : String) :
    (queryPk w.table ("ORDER#" ++ order_id) = [] →
      get_order w order_id true = .err 404 "Order not found")
    ∧ (∀ it rest, queryPk w.table ("ORDER#" ++ order_id) = it :: rest →
      get_order w order_id true = .ok (.obj it)) := by
  constructor
  · intro h
    simp [get_order, h]
  · intro it rest h
    simp [get_order, h]

/-- C4 witness: a miss on the empty store and a hit on a one-item
store. -/
theorem C4_get_order_404_or_first_witness :
    get_order defaultWorld "o-1" true = .err 404 "Order not found"
      ∧ get_order sampleWorld "o-1" true = .ok (.obj sampleItem) :=
  ⟨(C4_get_order_404_or_first defaultWorld "o-1").1 rfl,
   (C4_get_order_404_or_first sampleWorld "o-1").2 sampleItem [] rfl⟩

/-- C5: when the store write succeeds and the event publish fails, the
created record stays in the store and nothing else changes (no rollback,
no compensating event), while the client receives the generic 500. -/
theorem C5_partial_write_kept (w : World) (order : Item)
    (order_id timestamp : String) :
    create_order w order order_id timestamp true false
        = (.err 500 "Failed to create order",
           { w with table := put_item w.table (createItem order order_id timestamp) })
      ∧ createItem order order_id timestamp
        ∈ (create_order w order order_id timestamp true false).2.table :=
  ⟨rfl, mem_put_item w.table (createItem order order_id timestamp)⟩

/-- C6: a successful `GET /orders` answers with a `count` field equal to
the number of items in the returned `orders` list. -/
theorem C6_list_orders_count (w : World) :
    ∃ orders n, list_orders w true
        = .ok (.obj [("orders", .arr orders), ("count", .num n)])
      ∧ n = Int.ofNat orders.length :=
  ⟨w.table.map JVal.obj, Int.ofNat w.table.length, rfl, by simp⟩

theorem str_append_assoc (a b c : String) : a ++ b ++ c = a ++ (b ++ c) := by
  apply String.ext
  simp [String.data_append]

/-- C7: `POST /files/upload` fails with 500 before attempting any
object-store write when the bucket configuration is empty; when
configured and the write succeeds, it stores the body and returns
`{file_key, bucket, timestamp}` with the key under the `uploads/`
prefix. -/
theorem C7_upload_file_bucket (w : World) (file_data : Item)
    (uuid timestamp : String) (s3PutOk : Bool) :
    (w.s3Bucket = "" →
      upload_file w file_data uuid timestamp s3PutOk
        = (.err 500 "S3 bucket not configured", w))
    ∧ (w.s3Bucket ≠ "" → s3PutOk = true →
      ∃ tail,
        upload_file w file_data uuid timestamp s3PutOk
          = (.ok (.obj [("file_key", .str ("uploads/" ++ tail)),
                        ("bucket", .str w.s3Bucket),
                        ("timestamp", .str timestamp)]),
             { w with s3Objects :=
                 w.s3Objects ++ [("uploads/" ++ tail, .obj file_data)] })) := by
  constructor
  · intro h
    simp [upload_file, h]
  · intro h hok
    subst hok
    refine ⟨uuid ++ ("-" ++
      match getField file_data "filename" with
      | some v => pyStr v
      | none => "file"), ?_⟩
    simp only [upload_file, if_neg h, if_pos]
    rw [str_append_assoc, str_append_assoc]

/-- C7 witness: the unconfigured default world and a configured
bucket. -/
theorem C7_upload_file_bucket_witness :
    (upload_file defaultWorld [] "u1" "T1" true
        = (.err 500 "S3 bucket not configured", defaultWorld))
      ∧ ∃ tail,
        upload_file bucketWorld [] "u1" "T1" true
          = (.ok (.obj [("file_key", .str ("uploads/" ++ tail)),
                        ("bucket", .str bucketWorld.s3Bucket),
                        ("timestamp", .str "T1")]),
             { bucketWorld with s3Objects :=
                 bucketWorld.s3Objects ++ [("uploads/" ++ tail, .obj [])] }) :=
  ⟨(C7_upload_file_bucket defaultWorld [] "u1" "T1" true).1 rfl,
   (C7_upload_file_bucket bucketWorld [] "u1" "T1" true).2 (by decide) rfl⟩

/-- C1: after a successful create at time `old_ts`, a status update at a
freshly generated time `new_ts` addresses its write with the sort key
`METADATA#<new_ts>` — built from the current timestamp, not the stored
record's sort key — so under the store's sort-key-based upsert it
appends a brand-new item, and the item written by create-order is still
present. -/
theorem C1_update_addresses_fresh_sort_key (w : World) (order : Item)
    (order_id old_ts new_ts s : String) (hs : s ≠ "")
    (hfresh : ∀ x ∈ (create_order w order order_id old_ts true true).2.table,
      hasKey x ("ORDER#" ++ order_id) ("METADATA#" ++ new_ts) = false) :
    (update_order_status (create_order w order order_id old_ts true true).2
        order_id [("status", s)] new_ts true true).2.table
      = (create_order w order order_id old_ts true true).2.table
        ++ [[("pk", .str ("ORDER#" ++ order_id)),
             ("sk", .str ("METADATA#" ++ new_ts)),
             ("status", .str s), ("updated_at", .str new_ts)]]
    ∧ createItem order order_id old_ts
      ∈ (update_order_status (create_order w order order_id old_ts true true).2
          order_id [("status", s)] new_ts true true).2.table := by
  have hl : lookupStr [("status", s)] "status" = some s := by simp [lookupStr]
  have htab : (update_order_status (create_order w order order_id old_ts true true).2
      order_id [("status", s)] new_ts true true).2.table
      = update_item (create_order w order order_id old_ts true true).2.table
        ("ORDER#" ++ order_id) ("METADATA#" ++ new_ts) (.str s) (.str new_ts) := by
    simp [update_order_status, hl, hs]
  rw [htab, update_item_fresh _ _ _ _ _ hfresh]
  exact ⟨rfl, List.mem_append_left _
    (mem_put_item w.table (createItem order order_id old_ts))⟩

/-- C1 witness: create at `T0`, update at `T1`. -/
theorem C1_update_addresses_fresh_sort_key_witness :
    (update_order_status (create_order defaultWorld [] "o-1" "T0" true true).2
        "o-1" [("status", "shipped")] "T1" true true).2.table
      = (create_order defaultWorld [] "o-1" "T0" true true).2.table
        ++ [[("pk", .str ("ORDER#" ++ "o-1")),
             ("sk", .str ("METADATA#" ++ "T1")),
             ("status", .str "shipped"), ("updated_at", .str "T1")]]
    ∧ createItem [] "o-1" "T0"
      ∈ (update_order_status (create_order defaultWorld [] "o-1" "T0" true true).2
          "o-1" [("status", "shipped")] "T1" true true).2.table :=
  C1_update_addresses_fresh_sort_key defaultWorld [] "o-1" "T0" "T1" "shipped"
    (by decide) (by decide)

/-- C10: a status update for an order id with no record in the store
succeeds and upserts a brand-new record addressed by the id and the
fresh timestamp; moreover no branch of the handler ever produces a
404. -/
theorem C10_update_upserts_missing_order (w : World)
    (order_id s timestamp : String) (hs : s ≠ "")
    (hmiss : ∀ x ∈ w.table, hasPk x ("ORDER#" ++ order_id) = false) :
    update_order_status w order_id [("status", s)] timestamp true true
      = (.ok (.obj [("order_id", .str order_id), ("status", .str s),
                    ("timestamp", .str timestamp)]),
         { w with
           table := w.table
             ++ [[("pk", .str ("ORDER#" ++ order_id)),
                  ("sk", .str ("METADATA#" ++ timestamp)),
                  ("status", .str s), ("updated_at", .str timestamp)]],
           events := w.events ++
             [{ source := "myapp.orders", detailType := "Order Status Updated",
                detail := [("order_id", .str order_id), ("status", .str s),
                           ("timestamp", .str timestamp)],
                eventBusName := w.eventBusName }] })
    ∧ (∀ (w₁ : World) (status_data : List (String × String)) (ts : String)
        (u p : Bool) (d : String),
        (update_order_status w₁ order_id status_data ts u p).1 ≠ .err 404 d) := by
  have hl : lookupStr [("status", s)] "status" = some s := by simp [lookupStr]
  have hkey : ∀ x ∈ w.table,
      hasKey x ("ORDER#" ++ order_id) ("METADATA#" ++ timestamp) = false := by
    intro x hx
    cases hbool : hasKey x ("ORDER#" ++ order_id) ("METADATA#" ++ timestamp) with
    | false => rfl
    | true =>
      have hp := hasKey_hasPk _ _ _ hbool
      rw [hmiss x hx] at hp
      exact Bool.noConfusion hp
  constructor
  · have hred : update_order_status w order_id [("status", s)] timestamp true true
        = (.ok (.obj [("order_id", .str order_id), ("status", .str s),
                      ("timestamp", .str timestamp)]),
           { w with
             table := update_item w.table ("ORDER#" ++ order_id)
               ("METADATA#" ++ timestamp) (.str s) (.str timestamp),
             events := w.events ++
               [{ source := "myapp.orders", detailType := "Order Status Updated",
                  detail := [("order_id", .str order_id), ("status", .str s),
                             ("timestamp", .str timestamp)],
                  eventBusName := w.eventBusName }] }) := by
      simp [update_order_status, hl, hs]
    rw [hred, update_item_fresh _ _ _ _ _ hkey]
  · intro w₁ status_data ts u p d
    rcases hsd : lookupStr status_data "status" with _ | s₁
    · simp [update_order_status, hsd]
    · by_cases hs₁ : s₁ = "" <;> cases u <;> cases p <;>
        simp [update_order_status, hsd, hs₁]

/-- C10 witness: updating a nonexistent order on the empty store. -/
theorem C10_update_upserts_missing_order_witness :
    update_order_status defaultWorld "o-1" [("status", "shipped")] "T1" true true
      = (.ok (.obj [("order_id", .str "o-1"), ("status", .str "shipped"),
                    ("timestamp", .str "T1")]),
         { defaultWorld with
           table := defaultWorld.table
             ++ [[("pk", .str ("ORDER#" ++ "o-1")),
                  ("sk", .str ("METADATA#" ++ "T1")),
                  ("status", .str "shipped"), ("updated_at", .str "T1")]],
           events := defaultWorld.events ++
             [{ source := "myapp.orders", detailType := "Order Status Updated",
                detail := [("order_id", .str "o-1"), ("status", .str "shipped"),
                           ("timestamp", .str "T1")],
                eventBusName := defaultWorld.eventBusName }] })
    ∧ (∀ (w₁ : World) (status_data : List (String × String)) (ts : String)
        (u p : Bool) (d : String),
        (update_order_status w₁ "o-1" status_data ts u p).1 ≠ .err 404 d) :=
  C10_update_upserts_missing_order defaultWorld "o-1" "shipped" "T1"
    (by decide) (by decide)

/-- C2 counterexample: with body `{"status": "pending"}` the create
succeeds (and even reports `status: "created"` in its response), but the
`**order` spread is applied last in the dict literal, so the stored —
and immediately retrieved — record carries `status: "pending"`, not
`"created"`. -/
theorem C2_counterexample :
    (create_order defaultWorld [("status", JVal.str "pending")] "o-1" "T0" true true).1
        = .ok (.obj [("order_id", .str "o-1"), ("status", .str "created"),
                     ("timestamp", .str "T0")])
    ∧ get_order
        (create_order defaultWorld [("status", JVal.str "pending")] "o-1" "T0" true true).2
        "o-1" true
        = .ok (.obj [("pk", .str ("ORDER#" ++ "o-1")),
                     ("sk", .str ("METADATA#" ++ "T0")),
                     ("order_id", .str "o-1"),
                     ("status", .str "pending"),
                     ("created_at", .str "T0")])
    ∧ getField [("pk", JVal.str ("ORDER#" ++ "o-1")),
                ("sk", JVal.str ("METADATA#" ++ "T0")),
                ("order_id", JVal.str "o-1"),
                ("status", JVal.str "pending"),
                ("created_at", JVal.str "T0")] "status"
        ≠ some (.str "created") := by
  refine ⟨rfl, rfl, ?_⟩
  intro h
  rw [show getField [("pk", JVal.str ("ORDER#" ++ "o-1")),
        ("sk", JVal.str ("METADATA#" ++ "T0")),
        ("order_id", JVal.str "o-1"),
        ("status", JVal.str "pending"),
        ("created_at", JVal.str "T0")] "status" = some (.str "pending") from rfl] at h
  injection h with h₁
  injection h₁ with h₂
  exact absurd h₂ (by decide)

/-- C2 (amended): for every JSON object body that supplies neither a
`pk` nor a `status` field, if `POST /orders` succeeds with a fresh id,
then an immediate `GET /orders/{id}` returns a record containing every
caller-supplied field with its supplied value plus `status:
"created"`. -/
theorem C2_create_then_get (w : World) (order : Item)
    (order_id timestamp : String)
    (hnd : (order.map Prod.fst).Nodup)
    (hpk : getField order "pk" = none)
    (hst : getField order "status" = none)
    (hfresh : queryPk w.table ("ORDER#" ++ order_id) = []) :
    (create_order w order order_id timestamp true true).1
        = .ok (.obj [("order_id", .str order_id), ("status", .str "created"),
                     ("timestamp", .str timestamp)])
    ∧ ∃ it,
        get_order (create_order w order order_id timestamp true true).2 order_id true
          = .ok (.obj it)
        ∧ (∀ k v, (k, v) ∈ order → getField it k = some v)
        ∧ getField it "status" = some (.str "created") := by
  refine ⟨rfl, createItem order order_id timestamp, ?_, ?_, ?_⟩
  · have hpkitem : getField (createItem order order_id timestamp) "pk"
        = some (.str ("ORDER#" ++ order_id)) := by
      unfold createItem
      rw [getField_mergeFields_none _ _ _ hpk]
      rfl
    have hall : ∀ x ∈ w.table, hasPk x ("ORDER#" ++ order_id) = false := by
      intro x hx
      have hnotp := List.filter_eq_nil_iff.mp hfresh x hx
      simpa using hnotp
    have hput : put_item w.table (createItem order order_id timestamp)
        = w.table ++ [createItem order order_id timestamp] :=
      put_item_fresh _ _
        (fun x hx => sameKey_false_of_pk x _ _ hpkitem (hall x hx))
    have hfresh₀ : w.table.filter (fun it => hasPk it ("ORDER#" ++ order_id)) = [] :=
      hfresh
    have hq : queryPk (create_order w order order_id timestamp true true).2.table
        ("ORDER#" ++ order_id) = [createItem order order_id timestamp] := by
      show queryPk (put_item w.table (createItem order order_id timestamp))
        ("ORDER#" ++ order_id) = _
      rw [hput]
      unfold queryPk
      rw [List.filter_append, hfresh₀]
      simp [List.filter, hasPk_of_getField _ _ hpkitem]
    simp [get_order, hq]
  · intro k v hkv
    unfold createItem
    exact getField_mergeFields_mem _ _ _ _ hnd hkv
  · unfold createItem
    rw [getField_mergeFields_none _ _ _ hst]
    rfl

/-- C2 witness: a body with one caller-supplied field on the empty
store. -/
theorem C2_create_then_get_witness :
    (create_order defaultWorld [("customer", JVal.str "alice")] "o-1" "T0" true true).1
        = .ok (.obj [("order_id", .str "o-1"), ("status", .str "created"),
                     ("timestamp", .str "T0")])
    ∧ ∃ it,
        get_order
          (create_order defaultWorld [("customer", JVal.str "alice")] "o-1" "T0" true true).2
          "o-1" true
          = .ok (.obj it)
        ∧ (∀ k v, (k, v) ∈ [("customer", JVal.str "alice")] → getField it k = some v)
        ∧ getField it "status" = some (.str "created") :=
  C2_create_then_get defaultWorld [("customer", JVal.str "alice")] "o-1" "T0"
    (by simp) rfl rfl rfl

/-- C8: the order id returned by each fully successful create is exactly
the UUID generated during that call, so across a sequence of calls whose
generated identifiers are pairwise distinct — the only uniqueness the
code relies on — the returned ids are pairwise distinct as well. -/
theorem C8_fresh_order_ids (w : World) (calls : List (Item × String × String))
    (hdist : (calls.map (fun c => c.2.1)).Pairwise (· ≠ ·)) :
    ((runCreates w calls).2.map respOrderId
        = calls.map (fun c => some (JVal.str c.2.1)))
    ∧ ((runCreates w calls).2.map respOrderId).Pairwise (· ≠ ·) := by
  have hmap : ∀ w₁ : World, (runCreates w₁ calls).2.map respOrderId
      = calls.map (fun c => some (JVal.str c.2.1)) := by
    clear hdist
    induction calls with
    | nil => intro w₁; rfl
    | cons c rest ih =>
      intro w₁
      obtain ⟨order, oid, ts⟩ := c
      simp only [runCreates, List.map_cons]
      rw [ih]
      rfl
  refine ⟨hmap w, ?_⟩
  rw [hmap w]
  rw [List.pairwise_map] at hdist ⊢
  refine hdist.imp ?_
  intro a b h heq
  apply h
  injection heq with h₁
  injection h₁

/-- C8 witness: two calls with distinct generated UUIDs. -/
theorem C8_fresh_order_ids_witness :
    ((runCreates defaultWorld [([], "u-1", "T0"), ([], "u-2", "T1")]).2.map respOrderId
        = [some (JVal.str "u-1"), some (JVal.str "u-2")])
    ∧ ((runCreates defaultWorld
        [([], "u-1", "T0"), ([], "u-2", "T1")]).2.map respOrderId).Pairwise (· ≠ ·) :=
  C8_fresh_order_ids defaultWorld [([], "u-1", "T0"), ([], "u-2", "T1")]
    (by simp)
